import Mathlib

/-!
Shallow embedding of the ai-chat front-end core:
  * `src/graphql/client.ts` — the GraphQL transport client (`GraphQLClient.request`,
    `GraphQLClient.sendMessage`, `GraphQLClient.chat`, `GraphQLClient.healthCheck`);
  * the application component (`App`) — the conversation controller
    (`handleSendMessage`, `handleKeyPress`, the message log, the `isLoading` flag).

Conventions of the embedding:
  * JavaScript exceptions become `Except String`; a thrown `Error(msg)` is `Except.error msg`.
  * A `fetch` outcome is a constructor of `FetchResult`: either the promise rejects
    (network failure) or an HTTP response with a numeric status arrives, whose body
    either fails JSON parsing or parses to a GraphQL envelope.
  * `Date` values are `JSDate`: either a valid instant (milliseconds since epoch) or
    the JavaScript "Invalid Date". Parsing a date string (`new Date(s)` for `s ≠ ""`)
    is abstracted by a parameter `parse : String → Option Int`, `none` meaning the
    string is unparseable; `new Date()` ("now") is a parameter `now : Int`.
  * React state updates are explicit state passing on `AppState`; the two closure
    captures of `handleSendMessage` (`currentInput` and the submit-time `messages`
    array used for id assignment) are the fields of `SubmitCtx`.
-/

/-- Sender of a chat message: `'user' | 'ai'` in the source. -/
inductive Sender where
  | user
  | ai
deriving DecidableEq, Repr

/-- A JavaScript `Date`: a valid instant in epoch milliseconds, or Invalid Date
(the result of `new Date(s)` on an unparseable non-empty string). -/
inductive JSDate where
  | valid (ms : Int)
  | invalid
deriving DecidableEq, Repr

/-- The controller's `Message` record: `{id: number, text: string, sender, timestamp: Date}`. -/
structure Message where
  id : Nat
  text : String
  sender : Sender
  timestamp : JSDate
deriving DecidableEq, Repr

/-- A GraphQL error location `{line, column}`. -/
structure GQLLocation where
  line : Nat
  column : Nat
deriving DecidableEq, Repr

/-- One entry of the envelope's error list: `{message, locations?, path?}`. -/
structure GQLError where
  message : String
  locations : Option (List GQLLocation) := none
  path : Option (List String) := none
deriving DecidableEq, Repr

/-- The wire-level `GraphQLResponse<T>` envelope: `{data?: T, errors?: [...]}`.
`none` models an absent (or `null`) field. -/
structure Envelope (T : Type) where
  data : Option T := none
  errors : Option (List GQLError) := none
deriving DecidableEq, Repr

/-- Outcome of `response.json()`: the body parses to an envelope, or parsing throws. -/
inductive BodyOutcome (T : Type) where
  | parseFail (msg : String)
  | parsed (env : Envelope T)
deriving DecidableEq, Repr

/-- Outcome of the `fetch` in `GraphQLClient.request`: the promise rejects with a
network error, or an HTTP response with the given status arrives. -/
inductive FetchResult (T : Type) where
  | netError (msg : String)
  | response (status : Nat) (body : BodyOutcome T)
deriving DecidableEq, Repr

/-- The `ok` flag of a fetch `Response`: status in the 2xx success range [200, 300). -/
def responseOk (status : Nat) : Bool :=
  200 ≤ status && status < 300

/-- `GraphQLClient.request<T>`: throws `HTTP error! status: ...` on a non-ok status
before the body is parsed; then rethrows a JSON parse failure; then throws the first
envelope error's message when `result.errors` is present and non-empty; then throws
`No data received from server` when `result.data` is absent; otherwise returns the data. -/
def request (T : Type) (f : FetchResult T) : Except String T :=
  match f with
  | .netError msg => Except.error msg
  | .response status body =>
    if responseOk status = false then
      Except.error ("HTTP error! status: " ++ toString status)
    else
      match body with
      | .parseFail msg => Except.error msg
      | .parsed env =>
        match env.errors with
        | some (e :: _) => Except.error e.message
        | _ =>
          match env.data with
          | none => Except.error "No data received from server"
          | some d => Except.ok d

/-- The backend reply shape `{id, message, timestamp, model}` shared by `chat` and
`sendMessage`. `timestamp` is `Option String` because the wire value may be absent. -/
structure BackendMessage where
  id : String
  message : String
  timestamp : Option String
  model : String
deriving DecidableEq, Repr

/-- `SendMessageResponse`: the data payload of the `SendMessage` mutation. -/
structure SendMessageResponse where
  sendMessage : BackendMessage
deriving DecidableEq, Repr

/-- `ChatResponse`: the data payload of the `Chat` query. -/
structure ChatResponse where
  chat : BackendMessage
deriving DecidableEq, Repr

/-- `GraphQLClient.sendMessage`: `request` followed by projecting `result.sendMessage`. -/
def sendMessageOp (f : FetchResult SendMessageResponse) : Except String BackendMessage :=
  (request SendMessageResponse f).map (fun d => d.sendMessage)

/-- `GraphQLClient.chat`: `request` followed by projecting `result.chat`. -/
def chatOp (f : FetchResult ChatResponse) : Except String BackendMessage :=
  (request ChatResponse f).map (fun d => d.chat)

/-- Outcome of the `fetch` issued by `healthCheck` against `/health`. -/
inductive ProbeResult where
  | netError (msg : String)
  | response (status : Nat)
deriving DecidableEq, Repr

/-- `GraphQLClient.healthCheck`: returns `response.ok`; the catch block swallows any
failure and returns `false`. Modelled in `Except` to record that no error escapes. -/
def healthCheck (p : ProbeResult) : Except String Bool :=
  match p with
  | .netError _ => Except.ok false
  | .response status => Except.ok (responseOk status)

/-- JavaScript `String.prototype.trim`: strip leading and trailing whitespace. -/
def jsTrim (s : String) : String :=
  String.mk (((s.data.dropWhile Char.isWhitespace).reverse.dropWhile Char.isWhitespace).reverse)

/-- The synthesized error text of the controller's catch branch (source line 71). -/
def errorText (msg : String) : String :=
  "抱歉，发送消息时出现错误：" ++ msg ++ "。请确保AI聊天服务正在运行。"

/-- The assistant message timestamp, `new Date(response.timestamp || new Date().toISOString())`:
when the field is absent or the empty string (both falsy), `new Date` of the current
time's ISO string, i.e. the current instant; otherwise `new Date(s)`, which is the
parsed instant when `s` parses and Invalid Date when it does not. -/
def aiTimestamp (parse : String → Option Int) (now : Int) (ts : Option String) : JSDate :=
  match ts with
  | none => JSDate.valid now
  | some s =>
    if s = "" then JSDate.valid now
    else
      match parse s with
      | some ms => JSDate.valid ms
      | none => JSDate.invalid

/-- The `MessageInput` argument of the `SendMessage` mutation: `{message, model?}`. -/
structure MessageInput where
  message : String
  model : Option String
deriving DecidableEq, Repr

/-- The React component state: the `messages` log, the `inputText` buffer and the
`isLoading` (pending) flag. -/
structure AppState where
  messages : List Message
  inputText : String
  isLoading : Bool
deriving DecidableEq, Repr

/-- What the body of `handleSendMessage` captures at submit time: `currentInput`
(the saved input text) and the length of the closure's `messages` array, which both
the `await` argument and the two `id` computations read. -/
structure SubmitCtx where
  currentInput : String
  submitLen : Nat
deriving DecidableEq, Repr

/-- The synchronous prefix of `handleSendMessage` (source lines 34–48): reject when
the trimmed input is empty; otherwise append the user message
(`id = messages.length + 1`, raw input text, `sender 'user'`, `new Date()`), clear
the input, set `isLoading`, and capture the `SubmitCtx` for the transport call. -/
def handleSendMessage (now : Int) (app : AppState) : AppState × Option SubmitCtx :=
  if jsTrim app.inputText = "" then (app, none)
  else
    ({ messages := app.messages ++
        [{ id := app.messages.length + 1
           text := app.inputText
           sender := Sender.user
           timestamp := JSDate.valid now }]
       inputText := ""
       isLoading := true },
     some { currentInput := app.inputText, submitLen := app.messages.length })

/-- The variables passed to `graphqlClient.sendMessage` (source lines 52–55):
`{message: currentInput, model: 'gpt-3.5-turbo'}`. -/
def sendMessageInput (ctx : SubmitCtx) : MessageInput :=
  { message := ctx.currentInput, model := some "gpt-3.5-turbo" }

/-- The continuation of `handleSendMessage` after the transport call resolves
(source lines 50–79): on success append the assistant message built from the
response (`id = submit-time length + 2`, `text = response.message`, timestamp via
`aiTimestamp`); on a raised error append the synthesized error message with the same
id and `new Date()`; in both branches (`finally`) clear `isLoading`. The appends use
the functional `setMessages(prev => ...)` form, so they extend the current log. -/
def resolveStep (parse : String → Option Int) (now : Int) (ctx : SubmitCtx)
    (res : Except String BackendMessage) (app : AppState) : AppState :=
  match res with
  | Except.ok resp =>
    { app with
      messages := app.messages ++
        [{ id := ctx.submitLen + 2
           text := resp.message
           sender := Sender.ai
           timestamp := aiTimestamp parse now resp.timestamp }]
      isLoading := false }
  | Except.error msg =>
    { app with
      messages := app.messages ++
        [{ id := ctx.submitLen + 2
           text := errorText msg
           sender := Sender.ai
           timestamp := JSDate.valid now }]
      isLoading := false }

/-- One whole run of `handleSendMessage`: the synchronous submit prefix and, when the
submission is accepted (a transport call was issued), the resolution of that call
with outcome `res`. A rejected submission performs no transport call and resolves
nothing. -/
def submitThenResolve (parse : String → Option Int) (now nowR : Int) (app : AppState)
    (res : Except String BackendMessage) : AppState :=
  match handleSendMessage now app with
  | (a, some ctx) => resolveStep parse nowR ctx res a
  | (a, none) => a

/-- A React keyboard event, restricted to the fields the source can consult. -/
structure KeyEvent where
  key : String
  shiftKey : Bool
  ctrlKey : Bool
  altKey : Bool
  metaKey : Bool
deriving DecidableEq, Repr

/-- The trigger condition of `handleKeyPress` (source line 101):
`e.key === 'Enter' && !e.shiftKey`. -/
def triggersSubmit (e : KeyEvent) : Bool :=
  e.key == "Enter" && !e.shiftKey

/-- The whole interactive system: the component state plus the at-most-one in-flight
`sendMessage` call (`some ctx` while a request is awaited). -/
structure Sys where
  app : AppState
  inflight : Option SubmitCtx
deriving DecidableEq, Repr

/-- The initial state: the greeting message (id 1, sender `'ai'`, `new Date()` at
mount time), empty input, not loading, no request in flight. -/
def initState (now : Int) : Sys :=
  { app :=
      { messages :=
          [{ id := 1
             text := "你好！我是AI助手，有什么可以帮助你的吗？"
             sender := Sender.ai
             timestamp := JSDate.valid now }]
        inputText := ""
        isLoading := false }
    inflight := none }

/-- The events the controller reacts to: editing the input, clicking the send
button, a key press in the input, and the resolution of the in-flight call. -/
inductive Event where
  | change (text : String)
  | clickSend
  | keyPress (e : KeyEvent)
  | resolve (res : Except String BackendMessage)

/-- Run `handleSendMessage`'s synchronous part and record the issued call, if any. -/
def doSubmit (now : Int) (sys : Sys) : Sys :=
  match handleSendMessage now sys.app with
  | (a, some ctx) => { app := a, inflight := some ctx }
  | (a, none) => { app := a, inflight := sys.inflight }

/-- One event step of the system. The input element carries `disabled={isLoading}`,
so `change` and `keyPress` events cannot fire while loading; the send button carries
`disabled={isLoading || inputText.trim() === ''}`. A `resolve` event can only occur
for the in-flight call. -/
def stepEv (parse : String → Option Int) (now : Int) (sys : Sys) (ev : Event) : Sys :=
  match ev with
  | .change t =>
    if sys.app.isLoading then sys
    else { sys with app := { sys.app with inputText := t } }
  | .clickSend =>
    if sys.app.isLoading then sys
    else if jsTrim sys.app.inputText = "" then sys
    else doSubmit now sys
  | .keyPress e =>
    if sys.app.isLoading then sys
    else if triggersSubmit e then doSubmit now sys
    else sys
  | .resolve res =>
    match sys.inflight with
    | some ctx => { app := resolveStep parse now ctx res sys.app, inflight := none }
    | none => sys

/-- The states the controller can reach from mount, under any schedule of events;
each event may occur at its own wall-clock time. -/
inductive Reachable (parse : String → Option Int) : Sys → Prop where
  | init : ∀ now, Reachable parse (initState now)
  | step : ∀ s ev now, Reachable parse s → Reachable parse (stepEv parse now s ev)

/-- A trivial date parser (everything unparseable) used to instantiate the abstract
`parse` parameter in concrete scenarios whose outcome does not depend on it. -/
def pZero : String → Option Int := fun _ => none

/-- A date parser mapping every string to the instant 99, for concrete scenarios
exercising the parseable-timestamp path. -/
def pConst : String → Option Int := fun _ => some 99

/-- A concrete reachable pending state: type "hi", then click send. -/
def sysPending : Sys :=
  stepEv pZero 0 (stepEv pZero 0 (initState 0) (Event.change "hi")) Event.clickSend

/-- Auxiliary invariant: in every reachable state, while the pending flag is set the
input buffer is empty — the submit path clears it synchronously and the disabled
input cannot change it until resolution. -/
theorem reachable_loading_input_empty (parse : String → Option Int) (s : Sys)
    (h : Reachable parse s) : s.app.isLoading = true → s.app.inputText = "" := by
  induction h with
  | init now => intro hl; simp [initState] at hl
  | step s ev now hr ih =>
    cases ev with
    | change t =>
      simp only [stepEv]
      split
      · exact ih
      · next hcond => intro hl; exact absurd hl hcond
    | clickSend =>
      simp only [stepEv]
      split
      · exact ih
      · split
        · exact ih
        · next hld htrim =>
          intro hl
          simp [doSubmit, handleSendMessage, htrim]
    | keyPress e =>
      simp only [stepEv]
      split
      · exact ih
      · split
        · intro hl
          by_cases htrim : jsTrim s.app.inputText = ""
          · next hld _ =>
            simp [doSubmit, handleSendMessage, htrim] at hl
            exact absurd hl hld
          · simp [doSubmit, handleSendMessage, htrim]
        · exact ih
    | resolve res =>
      simp only [stepEv]
      split
      · intro hl
        cases res <;> simp [resolveStep] at hl
      · exact ih

/-- C1: in every reachable controller state with the pending flag set, a submit call
is a no-op — the log is unchanged, no transport call is issued (no `SubmitCtx` is
produced), and the pending flag stays true. -/
theorem pending_submit_noop (parse : String → Option Int) (sys : Sys) (now : Int)
    (h : Reachable parse sys) (hp : sys.app.isLoading = true) :
    (handleSendMessage now sys.app).1.messages = sys.app.messages ∧
    (handleSendMessage now sys.app).2 = none ∧
    (handleSendMessage now sys.app).1.isLoading = true := by
  have he : sys.app.inputText = "" := reachable_loading_input_empty parse sys h hp
  have ht : jsTrim sys.app.inputText = "" := by rw [he]; rfl
  simp [handleSendMessage, ht, hp]

theorem pending_submit_noop_witness :
    (Reachable pZero sysPending ∧ sysPending.app.isLoading = true) ∧
    ((handleSendMessage 0 sysPending.app).1.messages = sysPending.app.messages ∧
     (handleSendMessage 0 sysPending.app).2 = none ∧
     (handleSendMessage 0 sysPending.app).1.isLoading = true) := by
  have hr : Reachable pZero sysPending :=
    Reachable.step _ Event.clickSend 0
      (Reachable.step _ (Event.change "hi") 0 (Reachable.init 0))
  have hp : sysPending.app.isLoading = true := by decide
  exact ⟨⟨hr, hp⟩, pending_submit_noop pZero sysPending 0 hr hp⟩

/-- C2: the request funnel, in order — a non-success status raises the HTTP error
regardless of the body (even one that fails to parse); then a non-empty error list
raises exactly the first entry's message whatever the data field holds; then an
absent data field raises the empty-response error; otherwise the data is returned. -/
theorem request_funnel (T : Type) (status : Nat) (body : BodyOutcome T)
    (dOpt : Option T) (e : GQLError) (rest : List GQLError) (d : T) :
    (responseOk status = false →
      request T (FetchResult.response status body) =
        Except.error ("HTTP error! status: " ++ toString status)) ∧
    (responseOk status = true →
      request T (FetchResult.response status
        (BodyOutcome.parsed { data := dOpt, errors := some (e :: rest) })) =
        Except.error e.message) ∧
    (responseOk status = true →
      request T (FetchResult.response status
        (BodyOutcome.parsed { data := none, errors := none })) =
        Except.error "No data received from server") ∧
    (responseOk status = true →
      request T (FetchResult.response status
        (BodyOutcome.parsed { data := none, errors := some [] })) =
        Except.error "No data received from server") ∧
    (responseOk status = true →
      request T (FetchResult.response status
        (BodyOutcome.parsed { data := some d, errors := none })) = Except.ok d) ∧
    (responseOk status = true →
      request T (FetchResult.response status
        (BodyOutcome.parsed { data := some d, errors := some [] })) = Except.ok d) := by
  refine ⟨?_, ?_, ?_, ?_, ?_, ?_⟩ <;> intro hok <;> simp [request, hok]

theorem request_funnel_witness :
    (responseOk 500 = false ∧
      request Nat (FetchResult.response 500 (BodyOutcome.parseFail "bad json")) =
        Except.error ("HTTP error! status: " ++ toString 500)) ∧
    (responseOk 200 = true ∧
      request Nat (FetchResult.response 200 (BodyOutcome.parsed
        { data := some 7, errors := some [{ message := "e1" }, { message := "e2" }] })) =
        Except.error "e1") := by
  have h500 := request_funnel Nat 500 (BodyOutcome.parseFail "bad json") (some 7)
    { message := "e1" } [{ message := "e2" }] 7
  have h200 := request_funnel Nat 200 (BodyOutcome.parseFail "bad json") (some 7)
    { message := "e1" } [{ message := "e2" }] 7
  exact ⟨⟨by decide, h500.1 (by decide)⟩, ⟨by decide, h200.2.1 (by decide)⟩⟩

/-- C3: healthCheck never raises — it always returns an `ok` boolean, and that
boolean is `true` exactly when the probe completed with a success HTTP status. -/
theorem healthCheck_never_raises (p : ProbeResult) :
    (∃ b, healthCheck p = Except.ok b) ∧
    (healthCheck p = Except.ok true ↔
      ∃ status, p = ProbeResult.response status ∧ responseOk status = true) := by
  cases p with
  | netError m =>
    refine ⟨⟨false, rfl⟩, ?_, ?_⟩
    · intro h; simp [healthCheck] at h
    · rintro ⟨st, h, _⟩; cases h
  | response st =>
    refine ⟨⟨responseOk st, rfl⟩, ?_, ?_⟩
    · intro h
      refine ⟨st, rfl, ?_⟩
      simpa [healthCheck] using h
    · rintro ⟨st2, heq, hok⟩
      cases heq
      simp [healthCheck, hok]

theorem healthCheck_never_raises_witness :
    ((∃ b, healthCheck (ProbeResult.response 200) = Except.ok b) ∧
      (healthCheck (ProbeResult.response 200) = Except.ok true ↔
        ∃ status, ProbeResult.response 200 = ProbeResult.response status ∧
          responseOk status = true)) ∧
    healthCheck (ProbeResult.netError "down") = Except.ok false :=
  ⟨healthCheck_never_raises (ProbeResult.response 200), rfl⟩

/-- C9: when the envelope carries both a non-empty error list and a data payload,
the request step raises the first error's message and the data is discarded. -/
theorem errors_take_precedence (T : Type) (status : Nat) (d : T) (e : GQLError)
    (rest : List GQLError) (h : responseOk status = true) :
    request T (FetchResult.response status
      (BodyOutcome.parsed { data := some d, errors := some (e :: rest) })) =
      Except.error e.message := by
  simp [request, h]

theorem errors_take_precedence_witness :
    responseOk 200 = true ∧
    request Nat (FetchResult.response 200 (BodyOutcome.parsed
      { data := some 42, errors := some [{ message := "dup" }] })) = Except.error "dup" :=
  ⟨by decide, errors_take_precedence Nat 200 42 { message := "dup" } [] (by decide)⟩

/-- Helper: shape of a full successful submission — the user message then the
assistant message built from the response, input cleared, pending cleared. -/
theorem submitThenResolve_ok (parse : String → Option Int) (now nowR : Int)
    (app : AppState) (resp : BackendMessage) (h : jsTrim app.inputText ≠ "") :
    submitThenResolve parse now nowR app (Except.ok resp) =
      { messages := app.messages ++
          [{ id := app.messages.length + 1, text := app.inputText,
             sender := Sender.user, timestamp := JSDate.valid now },
           { id := app.messages.length + 2, text := resp.message,
             sender := Sender.ai, timestamp := aiTimestamp parse nowR resp.timestamp }],
        inputText := "", isLoading := false } := by
  simp [submitThenResolve, handleSendMessage, h, resolveStep]

/-- Helper: shape of a full failed submission — the user message then the
synthesized error message, input cleared, pending cleared. -/
theorem submitThenResolve_error (parse : String → Option Int) (now nowR : Int)
    (app : AppState) (msg : String) (h : jsTrim app.inputText ≠ "") :
    submitThenResolve parse now nowR app (Except.error msg) =
      { messages := app.messages ++
          [{ id := app.messages.length + 1, text := app.inputText,
             sender := Sender.user, timestamp := JSDate.valid now },
           { id := app.messages.length + 2, text := errorText msg,
             sender := Sender.ai, timestamp := JSDate.valid nowR }],
        inputText := "", isLoading := false } := by
  simp [submitThenResolve, handleSendMessage, h, resolveStep]

/-- C4: a submission with non-empty trimmed input from the Idle state, once
resolved (success or raised error), leaves the pending flag false and the log
exactly two messages longer — one user message and one assistant-role message. -/
theorem submit_resolve_outcome (parse : String → Option Int) (now nowR : Int)
    (app : AppState) (res : Except String BackendMessage)
    (hIdle : app.isLoading = false) (h : jsTrim app.inputText ≠ "") :
    (submitThenResolve parse now nowR app res).isLoading = false ∧
    (submitThenResolve parse now nowR app res).messages.length = app.messages.length + 2 ∧
    ∃ u v, (submitThenResolve parse now nowR app res).messages = app.messages ++ [u, v] ∧
      u.sender = Sender.user ∧ v.sender = Sender.ai := by
  cases res with
  | ok resp =>
    rw [submitThenResolve_ok parse now nowR app resp h]
    exact ⟨rfl, by simp, ⟨_, _, rfl, rfl, rfl⟩⟩
  | error msg =>
    rw [submitThenResolve_error parse now nowR app msg h]
    exact ⟨rfl, by simp, ⟨_, _, rfl, rfl, rfl⟩⟩

theorem submit_resolve_outcome_witness :
    ((⟨[], "hi", false⟩ : AppState).isLoading = false ∧
      jsTrim (⟨[], "hi", false⟩ : AppState).inputText ≠ "") ∧
    ((submitThenResolve pZero 0 1 ⟨[], "hi", false⟩ (Except.error "x")).isLoading = false ∧
      (submitThenResolve pZero 0 1 ⟨[], "hi", false⟩ (Except.error "x")).messages.length =
        (⟨[], "hi", false⟩ : AppState).messages.length + 2 ∧
      ∃ u v, (submitThenResolve pZero 0 1 ⟨[], "hi", false⟩ (Except.error "x")).messages =
        (⟨[], "hi", false⟩ : AppState).messages ++ [u, v] ∧
        u.sender = Sender.user ∧ v.sender = Sender.ai) := by
  have h1 : (⟨[], "hi", false⟩ : AppState).isLoading = false := rfl
  have h2 : jsTrim (⟨[], "hi", false⟩ : AppState).inputText ≠ "" := by decide
  exact ⟨⟨h1, h2⟩, submit_resolve_outcome pZero 0 1 ⟨[], "hi", false⟩ (Except.error "x") h1 h2⟩

/-- C8: in an accepted submission the user message gets id = submit-time log length
plus 1 and the resolution message (assistant or error) gets that length plus 2. -/
theorem submit_resolve_ids (parse : String → Option Int) (now nowR : Int)
    (app : AppState) (res : Except String BackendMessage) (h : jsTrim app.inputText ≠ "") :
    ∃ u v, (submitThenResolve parse now nowR app res).messages = app.messages ++ [u, v] ∧
      u.id = app.messages.length + 1 ∧ v.id = app.messages.length + 2 ∧
      u.sender = Sender.user ∧ v.sender = Sender.ai := by
  cases res with
  | ok resp =>
    rw [submitThenResolve_ok parse now nowR app resp h]
    exact ⟨_, _, rfl, rfl, rfl, rfl, rfl⟩
  | error msg =>
    rw [submitThenResolve_error parse now nowR app msg h]
    exact ⟨_, _, rfl, rfl, rfl, rfl, rfl⟩

theorem submit_resolve_ids_witness :
    jsTrim (⟨[], "hello", false⟩ : AppState).inputText ≠ "" ∧
    ∃ u v,
      (submitThenResolve pConst 0 1 ⟨[], "hello", false⟩
        (Except.ok { id := "1", message := "hey", timestamp := none, model := "m" })).messages =
        (⟨[], "hello", false⟩ : AppState).messages ++ [u, v] ∧
      u.id = (⟨[], "hello", false⟩ : AppState).messages.length + 1 ∧
      v.id = (⟨[], "hello", false⟩ : AppState).messages.length + 2 ∧
      u.sender = Sender.user ∧ v.sender = Sender.ai := by
  have h : jsTrim (⟨[], "hello", false⟩ : AppState).inputText ≠ "" := by decide
  exact ⟨h, submit_resolve_ids pConst 0 1 ⟨[], "hello", false⟩
    (Except.ok { id := "1", message := "hey", timestamp := none, model := "m" }) h⟩

/-- C5: on a raised transport error the controller appends an assistant message
whose text embeds the error's description and clears the pending flag; and for the
backend envelope carrying only the error "boom", the sendMessage operation raises
exactly "boom", whose synthesized message text contains the substring "boom". -/
theorem resolve_failure_appends_error (parse : String → Option Int) (now : Int)
    (ctx : SubmitCtx) (app : AppState) (msg : String) :
    ((resolveStep parse now ctx (Except.error msg) app).messages =
        app.messages ++ [{ id := ctx.submitLen + 2, text := errorText msg,
                           sender := Sender.ai, timestamp := JSDate.valid now }] ∧
      (resolveStep parse now ctx (Except.error msg) app).isLoading = false ∧
      ∃ pre post, errorText msg = pre ++ msg ++ post) ∧
    sendMessageOp (FetchResult.response 200 (BodyOutcome.parsed
      { data := none, errors := some [{ message := "boom" }] })) = Except.error "boom" ∧
    ∃ pre post, errorText "boom" = pre ++ "boom" ++ post := by
  refine ⟨⟨rfl, rfl, "抱歉，发送消息时出现错误：", "。请确保AI聊天服务正在运行。", rfl⟩, ?_, ?_⟩
  · rfl
  · exact ⟨"抱歉，发送消息时出现错误：", "。请确保AI聊天服务正在运行。", rfl⟩

/-- C6 counterexample: with a date parser on which "not-a-date" fails, the assistant
message appended for a successful response carrying that timestamp field gets
Invalid Date — not the current time (0 here). -/
theorem resolve_success_unparseable_not_now :
    (resolveStep pZero 0 { currentInput := "hi", submitLen := 0 }
        (Except.ok { id := "1", message := "hey", timestamp := some "not-a-date", model := "m" })
        { messages := [], inputText := "", isLoading := true }).messages =
      [{ id := 2, text := "hey", sender := Sender.ai, timestamp := JSDate.invalid }] ∧
    JSDate.invalid ≠ JSDate.valid 0 :=
  ⟨rfl, by decide⟩

/-- C6 (amended): on success the appended assistant message's text equals the
response's message field and its timestamp is obtained from the response's timestamp
field; the fallback to the current time applies exactly when the field is absent or
empty, a parseable field yields the parsed instant, and a present, non-empty but
unparseable field yields Invalid Date (not the current time). -/
theorem resolve_success_message_fields (parse : String → Option Int) (now : Int)
    (ctx : SubmitCtx) (app : AppState) (resp : BackendMessage) :
    (resolveStep parse now ctx (Except.ok resp) app).messages =
      app.messages ++ [{ id := ctx.submitLen + 2, text := resp.message,
                         sender := Sender.ai,
                         timestamp := aiTimestamp parse now resp.timestamp }] ∧
    (resolveStep parse now ctx (Except.ok resp) app).isLoading = false ∧
    (resp.timestamp = none ∨ resp.timestamp = some "" →
      aiTimestamp parse now resp.timestamp = JSDate.valid now) ∧
    (∀ s ms, resp.timestamp = some s → s ≠ "" → parse s = some ms →
      aiTimestamp parse now resp.timestamp = JSDate.valid ms) ∧
    (∀ s, resp.timestamp = some s → s ≠ "" → parse s = none →
      aiTimestamp parse now resp.timestamp = JSDate.invalid) := by
  refine ⟨rfl, rfl, ?_, ?_, ?_⟩
  · rintro (h | h) <;> simp [aiTimestamp, h]
  · intro s ms hs hne hp
    simp [aiTimestamp, hs, hne, hp]
  · intro s hs hne hp
    simp [aiTimestamp, hs, hne, hp]

theorem resolve_success_message_fields_witness :
    (resolveStep pConst 0 { currentInput := "x", submitLen := 0 }
        (Except.ok { id := "1", message := "hey", timestamp := some "t", model := "m" })
        { messages := [], inputText := "", isLoading := true }).messages =
      [{ id := 2, text := "hey", sender := Sender.ai,
         timestamp := aiTimestamp pConst 0 (some "t") }] ∧
    aiTimestamp pConst 0 (some "t") = JSDate.valid 99 := by
  have h := resolve_success_message_fields pConst 0 { currentInput := "x", submitLen := 0 }
    { messages := [], inputText := "", isLoading := true }
    { id := "1", message := "hey", timestamp := some "t", model := "m" }
  exact ⟨h.1, h.2.2.2.1 "t" 99 rfl (by decide) rfl⟩

/-- C7 counterexample: an Enter key press with the Ctrl modifier held (Shift not
held) still triggers a submit — the handler consults only the Shift modifier, so
"Enter with any modifier held does not submit" fails at this event. -/
theorem enter_with_ctrl_triggers :
    triggersSubmit { key := "Enter", shiftKey := false, ctrlKey := true,
                     altKey := false, metaKey := false } = true ∧
    KeyEvent.ctrlKey { key := "Enter", shiftKey := false, ctrlKey := true,
                       altKey := false, metaKey := false } = true :=
  ⟨rfl, rfl⟩

/-- C7 (amended): an Enter key press with Shift not held triggers a submit and is
equivalent to the explicit send action; an Enter press with Shift held is not a
submit trigger; the Ctrl, Alt and Meta modifiers are not consulted at all. -/
theorem enter_submit_policy (parse : String → Option Int) (now : Int) (sys : Sys)
    (e : KeyEvent) (hk : e.key = "Enter") (hs : e.shiftKey = false) :
    triggersSubmit e = true ∧
    stepEv parse now sys (Event.keyPress e) = stepEv parse now sys Event.clickSend ∧
    (∀ e2 : KeyEvent, e2.shiftKey = true → triggersSubmit e2 = false) ∧
    (∀ e2 e3 : KeyEvent, e2.key = e3.key → e2.shiftKey = e3.shiftKey →
      triggersSubmit e2 = triggersSubmit e3) := by
  have htrig : triggersSubmit e = true := by simp [triggersSubmit, hk, hs]
  refine ⟨htrig, ?_, ?_, ?_⟩
  · by_cases hl : sys.app.isLoading
    · simp [stepEv, hl]
    · by_cases ht : jsTrim sys.app.inputText = ""
      · simp [stepEv, hl, ht, htrig, doSubmit, handleSendMessage]
      · simp [stepEv, hl, ht, htrig]
  · intro e2 h2
    simp [triggersSubmit, h2]
  · intro e2 e3 h1 h2
    simp [triggersSubmit, h1, h2]

theorem enter_submit_policy_witness :
    (KeyEvent.key { key := "Enter", shiftKey := false, ctrlKey := false,
                    altKey := false, metaKey := false } = "Enter" ∧
      KeyEvent.shiftKey { key := "Enter", shiftKey := false, ctrlKey := false,
                          altKey := false, metaKey := false } = false) ∧
    triggersSubmit { key := "Enter", shiftKey := false, ctrlKey := false,
                     altKey := false, metaKey := false } = true ∧
    stepEv pZero 0 (initState 0)
        (Event.keyPress { key := "Enter", shiftKey := false, ctrlKey := false,
                          altKey := false, metaKey := false }) =
      stepEv pZero 0 (initState 0) Event.clickSend := by
  have h := enter_submit_policy pZero 0 (initState 0)
    { key := "Enter", shiftKey := false, ctrlKey := false, altKey := false, metaKey := false }
    rfl rfl
  exact ⟨⟨rfl, rfl⟩, h.1, h.2.1⟩

/-- C10: every transport call issued by an accepted submission passes the literal
model string "gpt-3.5-turbo" in the sendMessage input — the model field is never
omitted — together with the saved input text as the message. -/
theorem submit_model_literal (now : Int) (app a : AppState) (ctx : SubmitCtx)
    (h : handleSendMessage now app = (a, some ctx)) :
    (sendMessageInput ctx).model = some "gpt-3.5-turbo" ∧
    (sendMessageInput ctx).model ≠ none ∧
    (sendMessageInput ctx).message = app.inputText := by
  by_cases ht : jsTrim app.inputText = ""
  · simp [handleSendMessage, ht] at h
  · simp [handleSendMessage, ht] at h
    obtain ⟨-, hctx⟩ := h
    subst hctx
    simp [sendMessageInput]

theorem submit_model_literal_witness :
    handleSendMessage 0 { messages := [], inputText := "hi", isLoading := false } =
      ({ messages := [{ id := 1, text := "hi", sender := Sender.user,
                        timestamp := JSDate.valid 0 }],
         inputText := "", isLoading := true },
       some { currentInput := "hi", submitLen := 0 }) ∧
    ((sendMessageInput { currentInput := "hi", submitLen := 0 }).model =
        some "gpt-3.5-turbo" ∧
      (sendMessageInput { currentInput := "hi", submitLen := 0 }).model ≠ none ∧
      (sendMessageInput { currentInput := "hi", submitLen := 0 }).message = "hi") := by
  have heq : handleSendMessage 0 { messages := [], inputText := "hi", isLoading := false } =
      ({ messages := [{ id := 1, text := "hi", sender := Sender.user,
                        timestamp := JSDate.valid 0 }],
         inputText := "", isLoading := true },
       some { currentInput := "hi", submitLen := 0 }) := by decide
  exact ⟨heq, submit_model_literal 0 _ _ _ heq⟩
